import Mathlib

/-!
Verification of the SMS command gateway (`sms-request-handler`), a shallow
embedding of `src/commands/parser.rs` into Lean 4.

Modelling conventions, applied throughout:
* Rust `String` is Lean `String`.  Rust `to_uppercase`/`to_lowercase` and
  `eq_ignore_ascii_case` are modelled with the ASCII case maps
  (`Char.toUpper`/`Char.toLower`); they coincide on ASCII input, which is the
  only input the keyword grammar inspects.
* Rust `str::len` is byte length, modelled by `String.utf8ByteSize`.
* Rust `split_whitespace` is splitting on whitespace characters and dropping
  empty pieces; `char::is_whitespace` is modelled by `Char.isWhitespace`
  (they agree on ASCII whitespace).
* `f64` amounts: no claim depends on float arithmetic, only on whether
  `str::parse::<f64>` succeeds.  The embedding therefore keeps the amount as
  the source token (a `String`) and models parse success by `isValidF64`,
  the grammar accepted by Rust's `f64: FromStr`.  Replies render the token
  where the source renders the float (identical for plain decimal tokens).
* Fallible collaborators (database repositories, HTTP endpoints) are passed
  to each response function as explicit outcome parameters
  (`Except Unit _` for repositories, per-endpoint outcome types for HTTP
  calls); `Option` on a repository models the "not configured" state, as in
  the Rust `Option<UserRepository>` fields of `CommandProcessor`.
-/

/-- ASCII uppercase of a string (Rust `to_uppercase` restricted to ASCII). -/
def asciiUpper (s : String) : String := String.mk (s.data.map Char.toUpper)

/-- ASCII lowercase of a string (Rust `to_lowercase` restricted to ASCII). -/
def asciiLower (s : String) : String := String.mk (s.data.map Char.toLower)

/-- Rust `eq_ignore_ascii_case`. -/
def eqIgnoreAsciiCase (a b : String) : Bool := asciiUpper a == asciiUpper b

/-- Rust `str::trim()`: strip leading and trailing whitespace. -/
def trimStr (s : String) : String :=
  String.mk (((s.data.dropWhile Char.isWhitespace).reverse.dropWhile Char.isWhitespace).reverse)

/-- Rust `str::starts_with(pre)`. -/
def startsWithStr (s pre : String) : Bool := pre.data.isPrefixOf s.data

/-- Rust `str::contains(needle)`: substring containment. -/
def containsSub (hay needle : String) : Bool :=
  hay.data.tails.any (fun t => needle.data.isPrefixOf t)

/-- Split a character list at whitespace; pieces may be empty. -/
def splitWsAux : List Char → List Char → List (List Char)
  | [], acc => [acc.reverse]
  | c :: rest, acc =>
    if c.isWhitespace then acc.reverse :: splitWsAux rest []
    else splitWsAux rest (c :: acc)

/-- Rust `split_whitespace().collect::<Vec<_>>()`: whitespace-separated,
empty pieces dropped. -/
def tokenize (s : String) : List String :=
  ((splitWsAux s.data []).map String.mk).filter (fun t => t ≠ "")

/-- Rust `[..].join(" ")`. -/
def joinSpace : List String → String
  | [] => ""
  | [a] => a
  | a :: rest => a ++ " " ++ joinSpace rest

/-- Nonempty all-ASCII-digit run, helper for the `f64` grammar. -/
def isDigits (l : List Char) : Bool := !l.isEmpty && l.all Char.isDigit

/-- Optionally signed digit run (the exponent body of a float literal). -/
def isSignedDigits (l : List Char) : Bool :=
  match l with
  | [] => false
  | c :: rest => if c = '+' || c = '-' then isDigits rest else isDigits l

/-- Split a float body at the first exponent marker `e`/`E`, if any. -/
def splitExp : List Char → List Char × Option (List Char)
  | [] => ([], none)
  | c :: rest =>
    if c = 'e' || c = 'E' then ([], some rest)
    else
      let (m, e) := splitExp rest
      (c :: m, e)

/-- Mantissa of a Rust float literal: `Digit+ | Digit+ '.' Digit* | Digit* '.' Digit+`. -/
def isMantissa (l : List Char) : Bool :=
  let intPart := l.takeWhile Char.isDigit
  let rest := l.dropWhile Char.isDigit
  match rest with
  | [] => !intPart.isEmpty
  | c :: frac =>
    c = '.' && frac.all Char.isDigit && (!intPart.isEmpty || !frac.isEmpty)

/-- The special float words `inf`, `infinity`, `nan` (ASCII case-insensitive). -/
def isSpecialFloat (l : List Char) : Bool :=
  let w := l.map Char.toLower
  w = "inf".data || w = "infinity".data || w = "nan".data

/-- Body of a float literal after the optional sign. -/
def isFloatBody (l : List Char) : Bool :=
  isSpecialFloat l ||
    (let (m, e) := splitExp l
     isMantissa m &&
       (match e with
        | none => true
        | some ex => isSignedDigits ex))

/-- Success of Rust `str::parse::<f64>()`: the grammar of `f64: FromStr`. -/
def isValidF64 (s : String) : Bool :=
  match s.data with
  | [] => false
  | c :: rest => if c = '+' || c = '-' then isFloatBody rest else isFloatBody (c :: rest)

/-- The parsed SMS command (`enum Command` in `parser.rs`).  Amount fields keep
the source token (see the module conventions). -/
inductive Command where
  | Help
  | Join (ens_name : Option String)
  | Balance
  | Pin (new_pin : Option String)
  | Send (amount token recipient : String)
  | Deposit
  | History
  | Redeem (code : String)
  | Swap (amount token : String)
  | Cashout (amount token : String)
  | Buy (amount : String)
  | Bridge (amount token from_chain to_chain : String)
  | Save (name phone : String)
  | Contacts
  | SwitchChain (chain : String)
  | Unknown (text : String)
  deriving DecidableEq, Repr

/-- `CommandProcessor::parse_save`: `SAVE <name> <phone>`. -/
def parse_save (parts : List String) : Command :=
  if parts.length < 3 then
    .Unknown "Usage: SAVE <name> <phone>"
  else
    .Save (parts.getD 1 "") (joinSpace (parts.drop 2))

/-- `CommandProcessor::parse_send`: `SEND <amount> <token> [TO] <recipient>`.
Receives the original-cased tokens (`original_parts` in the source). -/
def parse_send (parts : List String) : Command :=
  if parts.length < 4 then
    .Unknown "Use: SEND <amount> <token> <recipient>\nExample: SEND 10 TXTC swarnim.ttcip.eth"
  else if !isValidF64 (parts.getD 1 "") then
    .Unknown "Invalid amount"
  else
    let token := parts.getD 2 ""
    let recipient :=
      if 5 ≤ parts.length && eqIgnoreAsciiCase (parts.getD 3 "") "TO" then
        joinSpace (parts.drop 4)
      else
        joinSpace (parts.drop 3)
    if recipient = "" then
      .Unknown "Missing recipient.\nExample: SEND 10 TXTC swarnim.ttcip.eth"
    else
      .Send (parts.getD 1 "") token recipient

/-- `CommandProcessor::parse_bridge`: `BRIDGE <amount> <token> [FROM] <chain> [TO] <chain>`.
Receives the uppercased tokens (`parts` in the source). -/
def parse_bridge (parts : List String) : Command :=
  if parts.length < 5 then
    .Unknown "Usage: BRIDGE <amount> <token> FROM <chain> TO <chain>\nExample: BRIDGE 10 USDC FROM POLYGON TO BASE"
  else if !isValidF64 (parts.getD 1 "") then
    .Unknown "Invalid amount"
  else
    let token := parts.getD 2 ""
    if 7 ≤ parts.length && parts.getD 3 "" == "FROM" && parts.getD 5 "" == "TO" then
      .Bridge (parts.getD 1 "") token (parts.getD 4 "") (parts.getD 6 "")
    else if 6 ≤ parts.length && parts.getD 3 "" == "FROM" then
      .Bridge (parts.getD 1 "") token (parts.getD 4 "") (parts.getD 5 "")
    else if 5 ≤ parts.length then
      .Bridge (parts.getD 1 "") token (parts.getD 3 "") (parts.getD 4 "")
    else
      .Unknown "Usage: BRIDGE <amount> <token> FROM <chain> TO <chain>"

/-- `CommandProcessor::parse_buy`: `BUY <amount>`. -/
def parse_buy (parts : List String) : Command :=
  if parts.length < 2 then
    .Unknown "Usage: BUY <amount>\nExample: BUY 10 (buys €10 of TXTC with airtime)"
  else if !isValidF64 (parts.getD 1 "") then
    .Unknown "Invalid amount"
  else
    .Buy (parts.getD 1 "")

/-- `CommandProcessor::parse_swap`: `SWAP <amount> TXTC`. -/
def parse_swap (parts : List String) : Command :=
  if parts.length < 3 then
    .Unknown "Usage: SWAP <amount> TXTC"
  else if !isValidF64 (parts.getD 1 "") then
    .Unknown "Invalid amount"
  else
    .Swap (parts.getD 1 "") (parts.getD 2 "")

/-- `CommandProcessor::parse_cashout`: `CASHOUT <amount> <token>`. -/
def parse_cashout (parts : List String) : Command :=
  if parts.length < 3 then
    .Unknown "Usage: CASHOUT <amount> TXTC\nOr: CASHOUT <amount> ETH"
  else if !isValidF64 (parts.getD 1 "") then
    .Unknown "Invalid amount"
  else
    .Cashout (parts.getD 1 "") (parts.getD 2 "")

/-- `CommandProcessor::parse`: trim, uppercase a keyword view, split on
whitespace, dispatch on the first token.  `SEND` receives the original-cased
tokens; `SAVE`, `SWAP`, `CASHOUT`, `BUY`, `BRIDGE` and the positional
arguments of `PIN`, `REDEEM`, `CHAIN` receive the uppercased tokens, and the
fallback `Unknown` carries the uppercased text, exactly as in the source. -/
def parse (text : String) : Command :=
  let original := trimStr text
  let up := asciiUpper original
  let parts := tokenize up
  let original_parts := tokenize original
  if parts.isEmpty then
    .Unknown ""
  else
    match parts.getD 0 "" with
    | "COMMANDS" | "MENU" | "?" => .Help
    | "JOIN" | "START" | "REGISTER" => .Join ((parts.get? 1).map asciiLower)
    | "BALANCE" | "BAL" => .Balance
    | "PIN" => .Pin (parts.get? 1)
    | "SEND" => parse_send original_parts
    | "DEPOSIT" | "RECEIVE" => .Deposit
    | "HISTORY" | "TRANSACTIONS" | "TXS" => .History
    | "REDEEM" | "VOUCHER" | "CODE" =>
      if parts.length < 2 then .Unknown "Usage: REDEEM <code>"
      else .Redeem (parts.getD 1 "")
    | "SWAP" | "EXCHANGE" => parse_swap parts
    | "CASHOUT" | "CASH" => parse_cashout parts
    | "BUY" | "TOPUP" | "PURCHASE" => parse_buy parts
    | "BRIDGE" | "CROSS" => parse_bridge parts
    | "SAVE" | "ADD" => parse_save parts
    | "CONTACTS" | "BOOK" => .Contacts
    | "CHAIN" | "NETWORK" =>
      if parts.length < 2 then .Unknown "Usage: CHAIN <polygon|base|eth|arb>"
      else .SwitchChain (parts.getD 1 "")
    | _ => .Unknown up

example : parse "" = .Unknown "" := by decide
example : parse "   " = .Unknown "" := by decide
example : parse "menu" = .Help := by decide
example : parse "JOIN john" = .Join (some "john") := by decide
example : parse "SEND 10 USDC TO +917123456789" = .Send "10" "USDC" "+917123456789" := by decide
example : parse "SEND 10 TXTC" =
    .Unknown "Use: SEND <amount> <token> <recipient>\nExample: SEND 10 TXTC swarnim.ttcip.eth" := by decide
example : parse "SEND 10 TXTC bob" = .Send "10" "TXTC" "bob" := by decide
example : parse "SEND 10 TXTC TO" = .Send "10" "TXTC" "TO" := by decide
example : parse "PIN 1234" = .Pin (some "1234") := by decide
example : parse "PIN" = .Pin none := by decide
example : parse "BRIDGE 10 USDC FROM POLYGON TO BASE" = .Bridge "10" "USDC" "POLYGON" "BASE" := by decide
example : parse "save Bob +44123" = .Save "BOB" "+44123" := by decide
example : parse "FOOBAR hey" = .Unknown "FOOBAR HEY" := by decide
example : parse "send 10 txtc alice.eth" = .Send "10" "txtc" "alice.eth" := by decide
example : parse "SEND 1x TXTC bob" = .Unknown "Invalid amount" := by decide
example : isValidF64 "0.5" = true ∧ isValidF64 "1E3" = true ∧ isValidF64 "." = false ∧
    isValidF64 "-inf" = true ∧ isValidF64 "" = false := by decide

/-- A user row (the fields of the `users` table that `parser.rs` reads). -/
structure UserAccount where
  wallet_address : String
  encrypted_private_key : String
  ens_name : Option String
  deriving DecidableEq, Repr

/-- `UserRepository::find_by_phone` as an oracle: `Except.error` is a database
failure, `Except.ok none` is "no such user". -/
def UserLookup : Type := String → Except Unit (Option UserAccount)

/-- An address-book row (`wallet_address` / `contact_phone`, both optional). -/
structure Contact where
  wallet_address : Option String
  contact_phone : Option String
  deriving DecidableEq, Repr

/-- `AddressBookRepository::find_by_name(owner, name)` as an oracle. -/
def ContactLookup : Type := String → String → Except Unit (List Contact)

/-- A deposit row: `amount_display` is the `${:.2}`-rendered amount (the
numeric formatting itself is not examined by any claim). -/
structure Deposit where
  amount_display : String
  source : String
  deriving DecidableEq, Repr

/-- Outcome of the ENS `GET /api/ens/resolve/{name}` call in `send_response`:
request error, undecodable body, or a decoded body whose `address` field may
be absent. -/
inductive EnsOutcome where
  | netErr
  | badJson
  | json (address : Option String)
  deriving DecidableEq, Repr

/-- Outcome of the `POST /api/send-yellow` call: request error, undecodable
body, or a decoded `{success, error?}` body. -/
inductive SendOutcome where
  | netErr
  | badJson
  | json (success : Bool) (error : Option String)
  deriving DecidableEq, Repr

/-- Outcome of the `POST /api/redeem` call. -/
inductive RedeemOutcome where
  | netErr
  | badJson
  | json (success : Bool) (tokenAmount ethAmount txHash : Option String) (error : Option String)
  deriving DecidableEq, Repr

/-- Outcome of the `POST /api/bridge` call. -/
inductive BridgeOutcome where
  | netErr
  | badJson
  | json (success : Bool) (route : Option String) (error : Option String)
  deriving DecidableEq, Repr

/-- Outcome of a downstream call whose result the handler never inspects
(`/api/swap`, `/api/arc/cashout`, `/api/buy`): the call may time out, fail,
or answer with any body. -/
inductive RawOutcome where
  | timeout
  | netErr
  | response (status : Nat) (body : String)
  deriving DecidableEq, Repr

/-- Result of the recipient-resolution block of `send_response`: either a
canonical settlement address, or an early-return reply string. -/
inductive Resolution where
  | addr (a : String)
  | reply (r : String)
  deriving DecidableEq, Repr

/-- The literal-address shape test of `send_response`:
`recipient.starts_with("0x") && recipient.len() == 42` (bytes). -/
def isAddressShape (r : String) : Bool :=
  startsWithStr r "0x" && r.utf8ByteSize == 42

/-- The recipient-resolution block of `send_response` (`parser.rs` lines
574–625), with the collaborators as oracle parameters.  Strategies in source
order: literal address, phone number, dotted name, saved contact alias. -/
def resolve_recipient (sender recipient : String) (user_repo : UserLookup)
    (ens : EnsOutcome) (address_book : Option ContactLookup) : Resolution :=
  if isAddressShape recipient then
    .addr recipient
  else if startsWithStr recipient "+" then
    match user_repo recipient with
    | .ok (some u) => .addr u.wallet_address
    | .ok none => .reply (recipient ++ " hasn't joined yet.\nAsk them to text JOIN")
    | .error _ => .reply "Error looking up recipient."
  else if containsSub recipient ".eth" || containsSub recipient "." then
    match ens with
    | .netErr => .reply "Network error resolving ENS. Try later."
    | .badJson => .reply ("Could not resolve " ++ recipient ++ ".")
    | .json (some a) => .addr a
    | .json none => .reply ("Could not resolve " ++ recipient ++ ".\nUse wallet address instead.")
  else
    match address_book with
    | some book =>
      match book sender recipient with
      | .ok (c :: _) =>
        match c.wallet_address with
        | some a => .addr a
        | none =>
          match c.contact_phone with
          | some p =>
            match user_repo p with
            | .ok (some u) => .addr u.wallet_address
            | _ => .reply ("Contact " ++ recipient ++ " has no wallet.")
          | none => .reply ("Contact " ++ recipient ++ " has no address.")
      | _ => .reply "Invalid recipient.\nUse ENS (name.ttcip.eth), phone (+1...), or address (0x...)"
    | none => .reply "Invalid recipient.\nUse ENS (name.ttcip.eth), phone (+1...), or address (0x...)"

/-- The phone-number strategy of `resolve_recipient`, as a standalone
function of the only collaborator it consults. -/
def phone_path (recipient : String) (user_repo : UserLookup) : Resolution :=
  match user_repo recipient with
  | .ok (some u) => .addr u.wallet_address
  | .ok none => .reply (recipient ++ " hasn't joined yet.\nAsk them to text JOIN")
  | .error _ => .reply "Error looking up recipient."

/-- The dotted-name strategy of `resolve_recipient`, as a standalone function
of the only collaborator it consults. -/
def ens_path (recipient : String) (ens : EnsOutcome) : Resolution :=
  match ens with
  | .netErr => .reply "Network error resolving ENS. Try later."
  | .badJson => .reply ("Could not resolve " ++ recipient ++ ".")
  | .json (some a) => .addr a
  | .json none => .reply ("Could not resolve " ++ recipient ++ ".\nUse wallet address instead.")

/-- The saved-contact strategy of `resolve_recipient`, as a standalone
function of the collaborators it consults. -/
def contact_path (sender recipient : String) (user_repo : UserLookup)
    (address_book : Option ContactLookup) : Resolution :=
  match address_book with
  | some book =>
    match book sender recipient with
    | .ok (c :: _) =>
      match c.wallet_address with
      | some a => .addr a
      | none =>
        match c.contact_phone with
        | some p =>
          match user_repo p with
          | .ok (some u) => .addr u.wallet_address
          | _ => .reply ("Contact " ++ recipient ++ " has no wallet.")
        | none => .reply ("Contact " ++ recipient ++ " has no address.")
    | _ => .reply "Invalid recipient.\nUse ENS (name.ttcip.eth), phone (+1...), or address (0x...)"
  | none => .reply "Invalid recipient.\nUse ENS (name.ttcip.eth), phone (+1...), or address (0x...)"

/-- `CommandProcessor::pin_response`.  The handler never consults the user
directory: `update_ok` is the outcome of `UserRepository::update_pin` (only
reached when a repository is configured), and the sender's phone feeds only
that persistence call. -/
def pin_response (user_repo : Option Unit) (sender : String) (update_ok : Bool)
    (new_pin : Option String) : String :=
  match new_pin with
  | some pin =>
    if pin.length < 4 || pin.length > 6 || !(pin.data.all Char.isDigit) then
      "PIN must be 4-6 digits.\nExample: PIN 1234"
    else
      -- `if repo.update_pin(..).is_ok() { return "PIN set!" }` then falls
      -- through to the same reply.
      match user_repo with
      | some _ => if update_ok then "PIN set!" else "PIN set!"
      | none => "PIN set!"
  | none => "Reply: PIN <4-6 digits>\nExample: PIN 1234"

/-- `CommandProcessor::balance_response` up to the account lookup; `render`
abstracts the downstream balance fetch and its `f64` display (lines 490–531),
which no claim examines. -/
def balance_response (user_repo : Option UserLookup) (sender : String)
    (render : UserAccount → String) : String :=
  match user_repo with
  | none => "Balance: $0.00\nDB offline."
  | some repo =>
    match repo sender with
    | .ok (some u) => render u
    | .ok none => "No wallet. Reply JOIN first."
    | .error _ => "Error. Try later."

/-- `CommandProcessor::deposit_response`. -/
def deposit_response (user_repo : Option UserLookup) (sender : String) : String :=
  match user_repo with
  | none => "DB offline. Reply JOIN first."
  | some repo =>
    match repo sender with
    | .ok (some user) =>
      let deposit_address :=
        match user.ens_name with
        | some ens => ens
        | none => user.wallet_address
      "Fund wallet:\nDial *384*46750#\nOr REDEEM <code>\nOr send to:\n" ++ deposit_address
    | .ok none => "No wallet. Reply JOIN first."
    | .error _ => "Error. Try later."

/-- `CommandProcessor::history_response`: consults only the deposit
repository (`get_recent(from, 5)`), never the user directory. -/
def history_response (deposit_repo : Option (Except Unit (List Deposit)))
    (sender : String) : String :=
  match deposit_repo with
  | some (.ok deposits) =>
    if deposits.isEmpty then
      "No transactions yet.\nReply REDEEM <code> to add funds."
    else
      let history := deposits.map (fun d => "$" ++ d.amount_display ++ " via " ++ d.source)
      "Recent deposits:\n" ++ String.intercalate "\n" history
  | _ => "No transactions yet.\nReply REDEEM <code> to add funds."

/-- `CommandProcessor::send_response`: token check, account lookup, recipient
resolution, then the Yellow Network call; on failure the error text is
classified by substring. -/
def send_response (sender amount token recipient : String)
    (user_repo : Option UserLookup) (address_book : Option ContactLookup)
    (ens : EnsOutcome) (yellow : SendOutcome) : String :=
  let token_upper := asciiUpper token
  if token_upper ≠ "TXTC" && token_upper ≠ "ETH" then
    "Supported tokens: TXTC, ETH\nExample: SEND 10 TXTC swarnim.ttcip.eth"
  else
    match user_repo with
    | none => "DB offline. Try later."
    | some repo =>
      match repo sender with
      | .error _ => "Error. Try later."
      | .ok none => "No wallet. Reply JOIN first."
      | .ok (some _sender_acct) =>
        match resolve_recipient sender recipient repo ens address_book with
        | .reply r => r
        | .addr _recipient_address =>
          match yellow with
          | .netErr => "Network error. Try later."
          | .badJson => "Error processing response."
          | .json success error =>
            if success then
              "Sending " ++ amount ++ " " ++ token_upper ++ " to " ++ recipient ++
                "...\n\nQueued via Yellow Network.\nYou'll get SMS when complete."
            else
              let error_msg := error.getD "Unknown error"
              if containsSub error_msg "insufficient" || containsSub error_msg "balance" then
                "Insufficient balance."
              else
                "Transfer failed. Try later."

/-- `CommandProcessor::redeem_response`. -/
def redeem_response (user_repo : Option UserLookup) (sender code : String)
    (o : RedeemOutcome) : String :=
  match user_repo with
  | none => "DB offline. Try later."
  | some repo =>
    match repo sender with
    | .error _ => "Error. Try later."
    | .ok none => "No wallet. Reply JOIN first."
    | .ok (some _user) =>
      match o with
      | .netErr => "Network error. Try later."
      | .badJson => "Error processing response."
      | .json success ta ea _tx err =>
        if success then
          let token_amount := ta.getD "0"
          let eth_amount := ea.getD "0"
          "Voucher redeemed!\n\nReceived:\n" ++ token_amount ++ " TXTC\n" ++
            eth_amount ++ " ETH (gas)\n\nReply BALANCE to check."
        else
          let error_msg := err.getD "Unknown error"
          if containsSub error_msg "already redeemed" || containsSub error_msg "AlreadyRedeemed" then
            "Voucher already used."
          else if containsSub error_msg "not found" || containsSub error_msg "invalid" then
            "Invalid voucher code."
          else
            "Redemption failed. Try later."

/-- `CommandProcessor::buy_response`: the `/api/buy` call result (`_o`) is
bound to `_response` in the source and never inspected.  The `€{:.0}`
rendering of the amount is represented by the amount token. -/
def buy_response (user_repo : Option UserLookup) (sender amount : String)
    (_o : RawOutcome) : String :=
  match user_repo with
  | none => "DB offline. Try later."
  | some repo =>
    match repo sender with
    | .error _ => "Error. Try later."
    | .ok none => "No wallet. Reply JOIN first."
    | .ok (some _user) =>
      "Buying TXTC with €" ++ amount ++ " airtime...\n\nYou'll get an SMS when complete."

/-- `CommandProcessor::swap_response`: the `/api/swap` call result (`_o`) is
bound to `_response` in the source and never inspected. -/
def swap_response (user_repo : Option UserLookup) (sender amount token : String)
    (_o : RawOutcome) : String :=
  match user_repo with
  | none => "DB offline. Try later."
  | some repo =>
    match repo sender with
    | .error _ => "Error. Try later."
    | .ok none => "No wallet. Reply JOIN first."
    | .ok (some _user) =>
      "Swapping " ++ amount ++ " " ++ token ++
        "...\n\nYou'll get an SMS when complete.\n\nThis may take 30 seconds."

/-- `CommandProcessor::cashout_response`: the `/api/arc/cashout` call result
(`_o`) is bound to `_response` in the source and never inspected. -/
def cashout_response (user_repo : Option UserLookup) (sender amount token : String)
    (_o : RawOutcome) : String :=
  match user_repo with
  | none => "DB offline. Try later."
  | some repo =>
    match repo sender with
    | .error _ => "Error. Try later."
    | .ok none => "No wallet. Reply JOIN first."
    | .ok (some _user) =>
      let token_upper := asciiUpper token
      "Cashing out " ++ amount ++ " " ++ token_upper ++
        "...\n\nTXTC → USDC on Arc via Circle CCTP.\nYou'll get an SMS when complete.\n\nThis may take 1-2 minutes."

/-- `CommandProcessor::bridge_response`: unlike the other "async" commands,
the `/api/bridge` response is awaited and the reply branches on it; the raw
`error` field is interpolated into the failure reply. -/
def bridge_response (user_repo : Option UserLookup)
    (sender amount token from_chain to_chain : String) (o : BridgeOutcome) : String :=
  match user_repo with
  | none => "DB offline. Try later."
  | some repo =>
    match repo sender with
    | .error _ => "Error. Try later."
    | .ok none => "No wallet. Reply JOIN first."
    | .ok (some _user) =>
      match o with
      | .netErr => "Bridge service unavailable. Try later."
      | .badJson => "Bridge initiated. You'll get an SMS when complete."
      | .json success route error =>
        if success then
          let r := route.getD ""
          "Bridge started!\n" ++ r ++ "\nSMS when done."
        else
          let err := error.getD "Unknown error"
          "❌ Bridge failed: " ++ err

/-- The spec's error-classification rule for transfer failures
(`send_response`'s failure branch as a standalone normalizer). -/
def classify_send_error (e : String) : String :=
  if containsSub e "insufficient" || containsSub e "balance" then
    "Insufficient balance."
  else
    "Transfer failed. Try later."

/-- The spec's error-classification rule for redemption failures
(`redeem_response`'s failure branch as a standalone normalizer). -/
def classify_redeem_error (e : String) : String :=
  if containsSub e "already redeemed" || containsSub e "AlreadyRedeemed" then
    "Voucher already used."
  else if containsSub e "not found" || containsSub e "invalid" then
    "Invalid voucher code."
  else
    "Redemption failed. Try later."

/-- Modelled from the spec: the account directory (the `db` module is not
under `src/`).  §6: `find_by_phone(phone) -> UserAccount?`,
`create(phone, address, encrypted_key) -> UserAccount`; §3: at most one
account per phone number.  Represented as an in-memory association list of
phone → account rows; a `create` prepends a row. -/
structure DirState where
  accounts : List (String × UserAccount)
  deriving DecidableEq, Repr

/-- Modelled from the spec: `find_by_phone` returns the directory's account
for the phone, if any. -/
def find_by_phone (st : DirState) (phone : String) : Option UserAccount :=
  (st.accounts.find? (fun e => e.1 == phone)).map (fun e => e.2)

/-- Modelled from the spec: `create(phone, address, encrypted_key)` inserts a
new account row (no ENS name yet). -/
def create_account (st : DirState) (phone addr key : String) : DirState :=
  ⟨(phone, ⟨addr, key, none⟩) :: st.accounts⟩

/-- Number of directory rows for a phone. -/
def countFor (st : DirState) (phone : String) : Nat :=
  (st.accounts.filter (fun e => e.1 == phone)).length

/-- A freshly generated wallet (`UserWallet::create_new()` plus
`hex::encode(private_key_bytes())`): key generation is external entropy,
modelled as an input. -/
structure FreshWallet where
  address : String
  key_hex : String
  deriving DecidableEq, Repr

/-- Result of one no-alias JOIN step: the reply, the directory afterwards,
and whether `create` was called. -/
structure JoinResult where
  reply : String
  state : DirState
  created : Bool
  deriving DecidableEq, Repr

/-- The no-alias arm of `CommandProcessor::join_response` (`parser.rs` lines
407–476) over the spec-modelled directory.  `wallet` is the outcome of
`UserWallet::create_new()` (`none` = key-generation failure); `arc_wallet`
is the address string extracted from the Arc wallet call (`""` when that
call failed or returned no address).  The directory itself is assumed
reachable (its unreachability branches are exercised through the
oracle-parameterized response functions). -/
def join_no_alias (st : DirState) (sender : String) (wallet : Option FreshWallet)
    (arc_wallet : String) : JoinResult :=
  match find_by_phone st sender with
  | some user =>
    let a := user.wallet_address
    ⟨"Welcome back!\n\nYour wallet:\n" ++ a ++ "\n\nReply BALANCE or DEPOSIT", st, false⟩
  | none =>
    match wallet with
    | none => ⟨"Error creating wallet.", st, false⟩
    | some w =>
      let encrypted_key := w.key_hex
      let st' := create_account st sender w.address encrypted_key
      if arc_wallet.isEmpty then
        ⟨"Wallet created!\n" ++ w.address ++ "\n\nNow pick a name:\nJOIN <name>\n\nEx: JOIN alice",
          st', true⟩
      else
        let arcShort := String.mk (arc_wallet.data.take 10)
        ⟨"Wallet created!\n" ++ w.address ++ "\nArc (USDC): " ++ arcShort ++
            "...\n\nNow pick a name:\nJOIN <name>\n\nEx: JOIN alice",
          st', true⟩

/-- A concrete account used by closed witnesses and counterexamples. -/
def demoUser : UserAccount :=
  ⟨"0x1111111111111111111111111111111111111111", "deadbeef", none⟩

/-- A user directory in which every phone has `demoUser`. -/
def demoRepo : UserLookup := fun _ => .ok (some demoUser)

/-- A user directory with no accounts. -/
def emptyRepo : UserLookup := fun _ => .ok none

/-- The SEND recipient as the spec words it — "the literal TO in position 4,
when present, is skipped and the recipient is the remaining tokens joined by
single spaces" — for comparison with `parse_send`, which skips `TO` only
when a fifth token exists. -/
def spec_send_recipient (parts : List String) : String :=
  if eqIgnoreAsciiCase (parts.getD 3 "") "TO" then joinSpace (parts.drop 4)
  else joinSpace (parts.drop 3)

/-- An address book owning one contact whose alias is the literal address
shape `0x2222…` (42 bytes) but which maps to a different address — used to
show the literal-address strategy never consults it. -/
def contactBookWithAddrName : ContactLookup := fun _ name =>
  if name = "0x2222222222222222222222222222222222222222" then
    .ok [⟨some "0x9999999999999999999999999999999999999999", none⟩]
  else
    .ok []

theorem joinSpace_ne_empty : ∀ l : List String, l ≠ [] → (∀ t ∈ l, t ≠ "") → joinSpace l ≠ ""
  | [], h, _ => absurd rfl h
  | [a], _, h => by simpa [joinSpace] using h a (by simp)
  | a :: b :: rest, _, h => by
    intro hc
    have hlen := congrArg String.length hc
    simp only [joinSpace, String.length_append] at hlen
    have : (" " : String).length = 1 := rfl
    simp [this] at hlen

/-- C4: `parse` is a total function — every input string yields a `Command`
value — and empty or whitespace-only input falls back to the `Unknown`
variant carrying the empty string. -/
theorem parse_total (s : String) :
    (∃ c, parse s = c) ∧ (trimStr s = "" → parse s = Command.Unknown "") := by
  refine ⟨⟨parse s, rfl⟩, fun h => ?_⟩
  unfold parse
  rw [h]
  decide

theorem parse_total_witness :
    (∃ c, parse " \t " = c) ∧ parse " \t " = Command.Unknown "" :=
  ⟨(parse_total " \t ").1, (parse_total " \t ").2 (by decide)⟩

/-- C5 counterexample: at `SEND 10 TXTC TO` — 4 tokens, the literal `TO` in
position 4 — the code does not skip `TO`: it becomes the recipient, whereas
the claim's skip-then-join rule produces an empty recipient. -/
theorem send_to_keyword_not_skipped :
    parse "SEND 10 TXTC TO" = Command.Send "10" "TXTC" "TO" ∧
    spec_send_recipient ["SEND", "10", "TXTC", "TO"] = "" ∧
    ("TO" : String) ≠ "" := by decide

/-- C5 (amended): fewer than 4 tokens give the usage `Unknown`; with 4 or
more tokens and a numeric amount the result is `Send`, where the literal
`TO` in position 4 is skipped only when at least one token follows it
(5 or more tokens); with exactly 4 tokens a literal `TO` is itself the
recipient.  Boundary: `SEND 10 TXTC` is `Unknown`; `SEND 10 TXTC bob` is
`Send` with recipient `bob`. -/
theorem parse_send_shape (ps : List String) (h4 : 4 ≤ ps.length)
    (hn : isValidF64 (ps.getD 1 "") = true) (hne : ∀ t ∈ ps, t ≠ "") :
    parse_send ps =
      Command.Send (ps.getD 1 "") (ps.getD 2 "")
        (if 5 ≤ ps.length && eqIgnoreAsciiCase (ps.getD 3 "") "TO" then
          joinSpace (ps.drop 4)
        else joinSpace (ps.drop 3)) ∧
    (∀ qs : List String, qs.length < 4 →
      parse_send qs =
        Command.Unknown "Use: SEND <amount> <token> <recipient>\nExample: SEND 10 TXTC swarnim.ttcip.eth") ∧
    parse "SEND 10 TXTC" =
      Command.Unknown "Use: SEND <amount> <token> <recipient>\nExample: SEND 10 TXTC swarnim.ttcip.eth" ∧
    parse "SEND 10 TXTC bob" = Command.Send "10" "TXTC" "bob" := by
  have hrec :
      (if 5 ≤ ps.length && eqIgnoreAsciiCase (ps.getD 3 "") "TO" then
        joinSpace (ps.drop 4)
      else joinSpace (ps.drop 3)) ≠ "" := by
    split
    · next hcond =>
      have h5 : 5 ≤ ps.length := by
        have := (Bool.and_eq_true _ _).mp hcond
        exact of_decide_eq_true this.1
      apply joinSpace_ne_empty
      · intro hnil
        have := congrArg List.length hnil
        simp at this
        omega
      · intro t ht
        exact hne t (List.drop_subset _ _ ht)
    · apply joinSpace_ne_empty
      · intro hnil
        have := congrArg List.length hnil
        simp at this
        omega
      · intro t ht
        exact hne t (List.drop_subset _ _ ht)
  refine ⟨?_, ?_, by decide, by decide⟩
  · have h4' : ¬ ps.length < 4 := by omega
    simp only [parse_send, if_neg h4', hn, Bool.not_true, Bool.false_eq_true, if_false]
    rw [if_neg hrec]
  · intro qs hqs
    simp [parse_send, hqs]

theorem parse_send_shape_witness :
    parse_send ["SEND", "10", "TXTC", "TO", "bob"] = Command.Send "10" "TXTC" "bob" :=
  ((parse_send_shape ["SEND", "10", "TXTC", "TO", "bob"] (by decide) (by decide)
    (by decide)).1).trans (by decide)

/-- C8 counterexample: lowercase and uppercase SEND messages both parse, with
equal amount tokens, but the token fields are `"txtc"` and `"TXTC"` — not
identical, because `parse_send` reads the original-cased tokens. -/
theorem parse_case_token_mismatch :
    parse "send 10 txtc alice.eth" = Command.Send "10" "txtc" "alice.eth" ∧
    parse "SEND 10 TXTC alice.eth" = Command.Send "10" "TXTC" "alice.eth" ∧
    ("txtc" : String) ≠ "TXTC" := by decide

/-- C8 (amended): keyword matching is case-insensitive — both casings parse
to `Send` — with identical amount and with the recipient's original casing
preserved in both; the token also preserves the sender's original casing, so
the two tokens agree only up to ASCII case. -/
theorem parse_case_insensitive_keywords :
    parse "send 10 txtc alice.eth" = Command.Send "10" "txtc" "alice.eth" ∧
    parse "SEND 10 TXTC alice.eth" = Command.Send "10" "TXTC" "alice.eth" ∧
    eqIgnoreAsciiCase "txtc" "TXTC" = true ∧
    asciiUpper "txtc" = asciiUpper "TXTC" := by decide

/-- C9 counterexample: `SAVE Bob +44123` stores the uppercased name `BOB`,
and unrecognized text is carried uppercased in the `Unknown` variant — the
sender's original casing is not preserved for either. -/
theorem save_unknown_uppercased :
    parse "SAVE Bob +44123" = Command.Save "BOB" "+44123" ∧
    ("BOB" : String) ≠ "Bob" ∧
    parse "xyzzy Hello" = Command.Unknown "XYZZY HELLO" ∧
    ("XYZZY HELLO" : String) ≠ "xyzzy Hello" := by decide

/-- C9 (amended): `parse` dispatches `SEND` to `parse_send` over the
original-cased token list, so the SEND recipient preserves the sender's
casing; but `SAVE` is parsed from the uppercased token list and the fallback
`Unknown` carries the uppercased text. -/
theorem casing_views (s : String) (rest : List String) :
    (tokenize (asciiUpper (trimStr s)) = "SEND" :: rest →
      parse s = parse_send (tokenize (trimStr s))) ∧
    (tokenize (asciiUpper (trimStr s)) = "SAVE" :: rest →
      parse s = parse_save ("SAVE" :: rest)) ∧
    parse "SEND 10 TXTC MixedCase.Eth" = Command.Send "10" "TXTC" "MixedCase.Eth" ∧
    parse "save Bob +44 123" = Command.Save "BOB" "+44 123" ∧
    parse "blah MiXeD" = Command.Unknown "BLAH MIXED" := by
  refine ⟨fun h => ?_, fun h => ?_, by decide, by decide, by decide⟩
  · simp only [parse, h]
    rfl
  · simp only [parse, h]
    rfl

theorem casing_views_witness :
    parse "SEND 1 TXTC x" = parse_send (tokenize (trimStr "SEND 1 TXTC x")) :=
  (casing_views "SEND 1 TXTC x" ["1", "TXTC", "X"]).1 (by decide)

/-- C10: every PIN argument passing the 4–6 digit check is acknowledged with
exactly `PIN set!`, whether or not a user repository is configured and
whether or not the `update_pin` call succeeds — nothing can turn a valid PIN
into an error reply. -/
theorem valid_pin_always_acknowledged (user_repo : Option Unit) (sender : String)
    (update_ok : Bool) (pin : String) (h4 : 4 ≤ pin.length) (h6 : pin.length ≤ 6)
    (hd : pin.data.all Char.isDigit = true) :
    pin_response user_repo sender update_ok (some pin) = "PIN set!" := by
  have hcond : (pin.length < 4 || pin.length > 6 || !pin.data.all Char.isDigit) = false := by
    simp [hd, decide_eq_false_iff_not]
    omega
  simp only [pin_response]
  rw [hcond]
  cases user_repo <;> cases update_ok <;> rfl

theorem valid_pin_always_acknowledged_witness :
    pin_response none "+15551234567" false (some "1234") = "PIN set!" :=
  valid_pin_always_acknowledged none "+15551234567" false "1234" (by decide) (by decide)
    (by decide)

/-- C1 counterexample: Bridge is not fire-and-forget — `bridge_response`
awaits the downstream response and its reply differs between a success and a
failure outcome (neither branch discards the result). -/
theorem bridge_reply_depends_on_outcome :
    bridge_response (some demoRepo) "+1555" "10" "USDC" "POLYGON" "BASE"
        (BridgeOutcome.json true (some "polygon to base") none) =
      "Bridge started!\npolygon to base\nSMS when done." ∧
    bridge_response (some demoRepo) "+1555" "10" "USDC" "POLYGON" "BASE"
        (BridgeOutcome.json false none (some "boom")) = "❌ Bridge failed: boom" ∧
    ("Bridge started!\npolygon to base\nSMS when done." : String) ≠
      "❌ Bridge failed: boom" := by decide

/-- C1 (amended): for Swap, Cashout and Buy issued by a principal with an
existing UserAccount, the reply is the immediate acknowledgement template
and is identical whatever the downstream call's outcome (timeout, network
error or any response) — the result is discarded.  Bridge, by contrast,
awaits its downstream response and branches on it
(`bridge_reply_depends_on_outcome`). -/
theorem fire_and_forget_ack (repo : UserLookup) (sender amount token : String)
    (u : UserAccount) (h : repo sender = .ok (some u)) (o o' : RawOutcome) :
    swap_response (some repo) sender amount token o =
      "Swapping " ++ amount ++ " " ++ token ++
        "...\n\nYou'll get an SMS when complete.\n\nThis may take 30 seconds." ∧
    swap_response (some repo) sender amount token o =
      swap_response (some repo) sender amount token o' ∧
    cashout_response (some repo) sender amount token o =
      "Cashing out " ++ amount ++ " " ++ asciiUpper token ++
        "...\n\nTXTC → USDC on Arc via Circle CCTP.\nYou'll get an SMS when complete.\n\nThis may take 1-2 minutes." ∧
    cashout_response (some repo) sender amount token o =
      cashout_response (some repo) sender amount token o' ∧
    buy_response (some repo) sender amount o =
      "Buying TXTC with €" ++ amount ++ " airtime...\n\nYou'll get an SMS when complete." ∧
    buy_response (some repo) sender amount o = buy_response (some repo) sender amount o' := by
  simp [swap_response, cashout_response, buy_response, h]

theorem fire_and_forget_ack_witness :
    swap_response (some demoRepo) "+1555" "5" "TXTC" RawOutcome.timeout =
      "Swapping 5 TXTC...\n\nYou'll get an SMS when complete.\n\nThis may take 30 seconds." :=
  ((fire_and_forget_ack demoRepo "+1555" "5" "TXTC" demoUser rfl RawOutcome.timeout
    RawOutcome.netErr).1).trans (by decide)

/-- C2 counterexample: the Pin and History handlers never consult the user
directory at all (their embeddings take no directory argument), so a
principal with no UserAccount gets `PIN set!` — not
"No wallet. Reply JOIN first." — and with no repository configured Pin still
answers `PIN set!` rather than an offline message; History likewise answers
its static fallback. -/
theorem pin_history_skip_account_check :
    pin_response (some ()) "+1555" true (some "1234") = "PIN set!" ∧
    pin_response none "+1555" false (some "1234") = "PIN set!" ∧
    ("PIN set!" : String) ≠ "No wallet. Reply JOIN first." ∧
    history_response (some (.ok [])) "+1555" =
      "No transactions yet.\nReply REDEEM <code> to add funds." ∧
    ("No transactions yet.\nReply REDEEM <code> to add funds." : String) ≠
      "No wallet. Reply JOIN first." := by decide

/-- C2 (amended): the commands that do consult the user directory — Balance,
Deposit, Send, Redeem, Buy, Swap, Cashout, Bridge — reply exactly
"No wallet. Reply JOIN first." when the principal has no UserAccount, and a
fixed per-command offline message when no repository is configured; but Pin,
Save, Contacts, History and SwitchChain never perform the account check
(`pin_history_skip_account_check`). -/
theorem account_precondition_core (lookup : UserLookup)
    (sender amount token recipient code fc tc : String) (book : Option ContactLookup)
    (ens : EnsOutcome) (y : SendOutcome) (ro : RedeemOutcome) (bo : BridgeOutcome)
    (o : RawOutcome) (render : UserAccount → String) (h : lookup sender = .ok none) :
    balance_response none sender render = "Balance: $0.00\nDB offline." ∧
    deposit_response none sender = "DB offline. Reply JOIN first." ∧
    send_response sender amount "TXTC" recipient none book ens y = "DB offline. Try later." ∧
    redeem_response none sender code ro = "DB offline. Try later." ∧
    buy_response none sender amount o = "DB offline. Try later." ∧
    swap_response none sender amount token o = "DB offline. Try later." ∧
    cashout_response none sender amount token o = "DB offline. Try later." ∧
    bridge_response none sender amount token fc tc bo = "DB offline. Try later." ∧
    balance_response (some lookup) sender render = "No wallet. Reply JOIN first." ∧
    deposit_response (some lookup) sender = "No wallet. Reply JOIN first." ∧
    send_response sender amount "TXTC" recipient (some lookup) book ens y =
      "No wallet. Reply JOIN first." ∧
    redeem_response (some lookup) sender code ro = "No wallet. Reply JOIN first." ∧
    buy_response (some lookup) sender amount o = "No wallet. Reply JOIN first." ∧
    swap_response (some lookup) sender amount token o = "No wallet. Reply JOIN first." ∧
    cashout_response (some lookup) sender amount token o = "No wallet. Reply JOIN first." ∧
    bridge_response (some lookup) sender amount token fc tc bo =
      "No wallet. Reply JOIN first." := by
  have htu : asciiUpper "TXTC" = "TXTC" := by decide
  simp [balance_response, deposit_response, send_response, redeem_response, buy_response,
    swap_response, cashout_response, bridge_response, htu, h]

theorem account_precondition_core_witness :
    balance_response (some emptyRepo) "+1555" (fun _ => "") = "No wallet. Reply JOIN first." ∧
    swap_response none "+1555" "5" "TXTC" RawOutcome.timeout = "DB offline. Try later." :=
  ⟨(account_precondition_core emptyRepo "+1555" "5" "TXTC" "bob" "c" "POLYGON" "BASE" none
      EnsOutcome.netErr SendOutcome.netErr RedeemOutcome.netErr BridgeOutcome.netErr
      RawOutcome.timeout (fun _ => "") rfl).2.2.2.2.2.2.2.2.1,
   (account_precondition_core emptyRepo "+1555" "5" "TXTC" "bob" "c" "POLYGON" "BASE" none
      EnsOutcome.netErr SendOutcome.netErr RedeemOutcome.netErr BridgeOutcome.netErr
      RawOutcome.timeout (fun _ => "") rfl).2.2.2.2.2.1⟩

/-- C3 counterexample: a Bridge failure reply embeds the raw downstream
error text verbatim, so the raw text does appear in a user-facing reply and
the reply is not drawn from the fixed substring-classification vocabulary. -/
theorem bridge_leaks_raw_error :
    bridge_response (some demoRepo) "+1555" "10" "USDC" "POLYGON" "BASE"
        (BridgeOutcome.json false none (some "xyzzy quux")) =
      "❌ Bridge failed: xyzzy quux" ∧
    ∃ x y, bridge_response (some demoRepo) "+1555" "10" "USDC" "POLYGON" "BASE"
        (BridgeOutcome.json false none (some "xyzzy quux")) = x ++ "xyzzy quux" ++ y :=
  ⟨by decide, "❌ Bridge failed: ", "", by decide⟩

/-- C3 (amended): Send and Redeem failure replies are determined solely by
substring classification of the downstream error text (`insufficient`/
`balance` → "Insufficient balance."; `already redeemed`/`AlreadyRedeemed` →
"Voucher already used."; `not found`/`invalid` → "Invalid voucher code."),
falling back to a generic "<Action> failed. Try later.", and are always
drawn from that fixed vocabulary; there is no slippage rule anywhere, and
Bridge failure replies embed the raw error (`bridge_leaks_raw_error`). -/
theorem error_vocabulary_send_redeem (lookup : UserLookup)
    (sender amount code err : String) (u : UserAccount) (book : Option ContactLookup)
    (ens : EnsOutcome) (ta ea tx : Option String) (h : lookup sender = .ok (some u)) :
    send_response sender amount "TXTC" "0x2222222222222222222222222222222222222222"
        (some lookup) book ens (SendOutcome.json false (some err)) =
      classify_send_error err ∧
    (classify_send_error err = "Insufficient balance." ∨
      classify_send_error err = "Transfer failed. Try later.") ∧
    redeem_response (some lookup) sender code (RedeemOutcome.json false ta ea tx (some err)) =
      classify_redeem_error err ∧
    (classify_redeem_error err = "Voucher already used." ∨
      classify_redeem_error err = "Invalid voucher code." ∨
      classify_redeem_error err = "Redemption failed. Try later.") := by
  have htu : asciiUpper "TXTC" = "TXTC" := by decide
  have haddr : isAddressShape "0x2222222222222222222222222222222222222222" = true := by decide
  refine ⟨?_, ?_, ?_, ?_⟩
  · simp [send_response, resolve_recipient, htu, haddr, h, classify_send_error]
  · unfold classify_send_error
    split
    · exact Or.inl rfl
    · exact Or.inr rfl
  · simp [redeem_response, h, classify_redeem_error]
  · unfold classify_redeem_error
    split
    · exact Or.inl rfl
    · split
      · exact Or.inr (Or.inl rfl)
      · exact Or.inr (Or.inr rfl)

theorem error_vocabulary_send_redeem_witness :
    redeem_response (some demoRepo) "+1555" "CODE1"
        (RedeemOutcome.json false none none none (some "voucher not found")) =
      classify_redeem_error "voucher not found" ∧
    classify_redeem_error "voucher not found" = "Invalid voucher code." :=
  ⟨(error_vocabulary_send_redeem demoRepo "+1555" "5" "CODE1" "voucher not found" demoUser
      none EnsOutcome.netErr none none none rfl).2.2.1, by decide⟩

/-- C6: recipient resolution tries its strategies in fixed priority order
with the first match winning: a literal-address-shaped recipient (`0x`
prefix, 42 bytes) resolves to itself by an equation that mentions no
collaborator — so it is never looked up as a phone or alias, whatever the
directory and address book contain; a `+`-prefixed recipient resolves
through the user directory alone; a dotted recipient through the name
service alone; and only a recipient matching none of those shapes reaches
the contact-alias strategy. -/
theorem resolution_priority (sender r : String) (lookup : UserLookup)
    (ens : EnsOutcome) (book : Option ContactLookup) :
    (isAddressShape r = true →
      resolve_recipient sender r lookup ens book = Resolution.addr r) ∧
    (isAddressShape r = false → startsWithStr r "+" = true →
      resolve_recipient sender r lookup ens book = phone_path r lookup) ∧
    (isAddressShape r = false → startsWithStr r "+" = false →
      (containsSub r ".eth" || containsSub r ".") = true →
      resolve_recipient sender r lookup ens book = ens_path r ens) ∧
    (isAddressShape r = false → startsWithStr r "+" = false →
      (containsSub r ".eth" || containsSub r ".") = false →
      resolve_recipient sender r lookup ens book = contact_path sender r lookup book) := by
  refine ⟨fun h1 => ?_, fun h1 h2 => ?_, fun h1 h2 h3 => ?_, fun h1 h2 h3 => ?_⟩
  · simp [resolve_recipient, h1]
  · simp [resolve_recipient, phone_path, h1, h2]
  · simp [resolve_recipient, ens_path, h1, h2, h3]
  · simp [resolve_recipient, contact_path, h1, h2, h3]

theorem resolution_priority_witness :
    resolve_recipient "+1000" "0x2222222222222222222222222222222222222222" demoRepo
        EnsOutcome.netErr (some contactBookWithAddrName) =
      Resolution.addr "0x2222222222222222222222222222222222222222" ∧
    resolve_recipient "+1000" "+15550001111" emptyRepo EnsOutcome.netErr
        (some contactBookWithAddrName) = phone_path "+15550001111" emptyRepo ∧
    resolve_recipient "+1000" "alice.eth" demoRepo (EnsOutcome.json (some "0xA")) none =
      ens_path "alice.eth" (EnsOutcome.json (some "0xA")) ∧
    resolve_recipient "+1000" "bob" demoRepo EnsOutcome.netErr (some contactBookWithAddrName) =
      contact_path "+1000" "bob" demoRepo (some contactBookWithAddrName) :=
  ⟨(resolution_priority "+1000" "0x2222222222222222222222222222222222222222" demoRepo
      EnsOutcome.netErr (some contactBookWithAddrName)).1 (by decide),
   (resolution_priority "+1000" "+15550001111" emptyRepo EnsOutcome.netErr
      (some contactBookWithAddrName)).2.1 (by decide) (by decide),
   (resolution_priority "+1000" "alice.eth" demoRepo (EnsOutcome.json (some "0xA")) none).2.2.1
      (by decide) (by decide) (by decide),
   (resolution_priority "+1000" "bob" demoRepo EnsOutcome.netErr
      (some contactBookWithAddrName)).2.2.2 (by decide) (by decide) (by decide)⟩

theorem find_none_filter_nil (st : DirState) (p : String) (h : find_by_phone st p = none) :
    st.accounts.filter (fun e => e.1 == p) = [] := by
  have hf : st.accounts.find? (fun e => e.1 == p) = none := by
    unfold find_by_phone at h
    exact Option.map_eq_none'.mp h
  rw [List.filter_eq_nil_iff]
  intro a ha
  simpa using List.find?_eq_none.mp hf a ha

/-- C7: JOIN without an alias is idempotent account creation.  Starting from
a directory with no account for the phone: the first JOIN creates the
account and its reply shows the new wallet address; a second JOIN (whatever
fresh wallet or Arc outcome it would have used) replies with the
welcome-back message showing the same address, does not call `create`,
leaves the directory unchanged, and the directory holds exactly one account
for the phone. -/
theorem join_idempotent (st : DirState) (p : String) (w : FreshWallet)
    (w2 : Option FreshWallet) (arc arc2 : String) (h : find_by_phone st p = none) :
    (∃ x y, (join_no_alias st p (some w) arc).reply = x ++ w.address ++ y) ∧
    (join_no_alias st p (some w) arc).created = true ∧
    (join_no_alias (join_no_alias st p (some w) arc).state p w2 arc2).reply =
      "Welcome back!\n\nYour wallet:\n" ++ w.address ++ "\n\nReply BALANCE or DEPOSIT" ∧
    (∃ x y, (join_no_alias (join_no_alias st p (some w) arc).state p w2 arc2).reply =
      x ++ w.address ++ y) ∧
    (join_no_alias (join_no_alias st p (some w) arc).state p w2 arc2).created = false ∧
    (join_no_alias (join_no_alias st p (some w) arc).state p w2 arc2).state =
      (join_no_alias st p (some w) arc).state ∧
    countFor (join_no_alias (join_no_alias st p (some w) arc).state p w2 arc2).state p = 1 := by
  have hstate : (join_no_alias st p (some w) arc).state =
      create_account st p w.address w.key_hex := by
    simp only [join_no_alias, h]
    by_cases ha : arc.isEmpty <;> simp [ha]
  have hfind : find_by_phone (create_account st p w.address w.key_hex) p =
      some ⟨w.address, w.key_hex, none⟩ := by
    simp [find_by_phone, create_account]
  have hsecond : join_no_alias (create_account st p w.address w.key_hex) p w2 arc2 =
      ⟨"Welcome back!\n\nYour wallet:\n" ++ w.address ++ "\n\nReply BALANCE or DEPOSIT",
        create_account st p w.address w.key_hex, false⟩ := by
    simp [join_no_alias, hfind]
  have hcount : countFor (create_account st p w.address w.key_hex) p = 1 := by
    simp [countFor, create_account, find_none_filter_nil st p h]
  have hreply1 : ∃ x y, (join_no_alias st p (some w) arc).reply = x ++ w.address ++ y := by
    by_cases ha : arc.isEmpty
    · refine ⟨"Wallet created!\n", "\n\nNow pick a name:\nJOIN <name>\n\nEx: JOIN alice", ?_⟩
      simp [join_no_alias, h, ha]
    · refine ⟨"Wallet created!\n",
        "\nArc (USDC): " ++ String.mk (arc.data.take 10) ++
          "...\n\nNow pick a name:\nJOIN <name>\n\nEx: JOIN alice", ?_⟩
      simp [join_no_alias, h, ha, String.append_assoc]
  have hcreated1 : (join_no_alias st p (some w) arc).created = true := by
    simp only [join_no_alias, h]
    by_cases ha : arc.isEmpty <;> simp [ha]
  rw [hstate, hsecond]
  exact ⟨hreply1, hcreated1, rfl,
    ⟨"Welcome back!\n\nYour wallet:\n", "\n\nReply BALANCE or DEPOSIT", rfl⟩, rfl, rfl, hcount⟩

theorem join_idempotent_witness :
    (join_no_alias (join_no_alias ⟨[]⟩ "+15551234567" (some ⟨"0xW", "aa"⟩) "").state
      "+15551234567" none "x").created = false ∧
    countFor (join_no_alias (join_no_alias ⟨[]⟩ "+15551234567" (some ⟨"0xW", "aa"⟩) "").state
      "+15551234567" none "x").state "+15551234567" = 1 :=
  ⟨(join_idempotent ⟨[]⟩ "+15551234567" ⟨"0xW", "aa"⟩ none "" "x" rfl).2.2.2.2.1,
   (join_idempotent ⟨[]⟩ "+15551234567" ⟨"0xW", "aa"⟩ none "" "x" rfl).2.2.2.2.2.2⟩
